import Mathlib

/-!
Shallow embedding of the crypto-agent data-fetch pipeline
(crypto-workflow.ts, tools/getCryptoPrice.ts, tools/getSentimentScore.ts,
tools/getCryptoNews.ts).

Modelling conventions:
- JS numbers are rationals; `parseFloat`, `new URL` and `new Date` are host
  functions and appear as oracle fields of the environment records
  (`pf`, `urlProtocol`, `dateYear`, `isoAt`).  `parseFloat` returning NaN is
  modelled as `none`.
- JS strings are Lean strings; `.length`, `substring`, `includes` act on the
  character list (UTF-16 code units coincide with code points for the BMP
  strings appearing here).
- Truthiness: the empty string and the number 0 are falsy; `undefined` is
  `none` of an `Option`.
- Each outbound `fetch` together with `response.json()` is one
  `FetchOutcome`: an abort (timeout), a thrown error, or a response with
  `ok`, `status`, `statusText` and a decoded body (`none` body stands for a
  JSON value that fails the "is an object" checks).
- A stage `execute` with an enclosing try/catch is a total function; the try
  body is an `Except String` value and the catch branch is applied to the
  thrown message.  Stages additionally return the list of network requests
  they issued.
-/

namespace CryptoAgentSpec

/-- Single-quote character, built from its code point. -/
def sq : String := (Char.ofNat 39).toString

/-- JS logical-or on two strings: the empty string is falsy. -/
def jsOrStr (v d : String) : String := if v = "" then d else v

/-- JS logical-or on an optional string: `undefined` and `""` are falsy. -/
def jsOrStrO (v : Option String) (d : String) : String :=
  match v with
  | none => d
  | some s => jsOrStr s d

/-- JS logical-or on two numbers: 0 is falsy. -/
def jsOrNum (v d : ℚ) : ℚ := if v = 0 then d else v

/-- JS logical-or on an optional number: `undefined` and 0 are falsy. -/
def jsOrNumO (v : Option ℚ) (d : ℚ) : ℚ :=
  match v with
  | none => d
  | some q => jsOrNum q d

/-- JS `Math.max` on two numbers (as an executable conditional). -/
def jsMaxQ (a b : ℚ) : ℚ := if a ≤ b then b else a

/-- JS `Math.min` on two numbers (as an executable conditional). -/
def jsMinQ (a b : ℚ) : ℚ := if a ≤ b then a else b

/-- JS `String.prototype.trim`: strip whitespace at both ends. -/
def jsTrim (s : String) : String :=
  String.mk (((s.data.dropWhile Char.isWhitespace).reverse.dropWhile
    Char.isWhitespace).reverse)

/-- JS `String.prototype.toLowerCase` (ASCII range, which covers the data here). -/
def jsToLower (s : String) : String := String.mk (s.data.map Char.toLower)

/-- JS `String.prototype.toUpperCase` (ASCII range). -/
def jsToUpper (s : String) : String := String.mk (s.data.map Char.toUpper)

/-- JS `s.substring(0, n)`: the first `n` code units. -/
def jsSubstring (s : String) (n : ℕ) : String := String.mk (s.data.take n)

/-- JS `symbol.split("").reduce((acc, char) => acc + char.charCodeAt(0), 0)`:
sum of the code units of the string. -/
def charCodeSum (s : String) : ℕ := (s.data.map Char.toNat).sum

/-- JS `Array.prototype.slice(0, q)` end index: a nonnegative fractional
bound is truncated to an integer. -/
def jsSliceCount (q : ℚ) : ℕ := Int.toNat ⌊q⌋

/-- Three-way sentiment label used by the whole repository. -/
inductive Sentiment where
  | bullish
  | bearish
  | neutral
  deriving DecidableEq, Repr

/-- Rendering of a `Sentiment` exactly as the source interpolates it. -/
def sentimentLabel : Sentiment → String
  | .bullish => "bullish"
  | .bearish => "bearish"
  | .neutral => "neutral"

/-- Return shape of `convertToSentiment`. -/
structure SentimentScore where
  sentiment : Sentiment
  score : ℚ
  deriving DecidableEq, Repr

/-- Model of `convertToSentiment` (identical copies in crypto-workflow.ts and
getSentimentScore.ts): Fear and Greed value (0-100) to sentiment plus a
clamped score in [-1, 1]. -/
def convertToSentiment (value : ℚ) : SentimentScore :=
  let score := (value - 50) / 50
  let sentiment : Sentiment :=
    if value ≥ 60 then .bullish
    else if value ≤ 40 then .bearish
    else .neutral
  { sentiment := sentiment, score := jsMaxQ (-1) (jsMinQ 1 score) }

/-- Model of `getFearGreedClassification` (identical copies in crypto-workflow.ts and
getSentimentScore.ts): five-bucket label, first match from the top wins. -/
def getFearGreedClassification (value : ℚ) : String :=
  if value ≥ 75 then "Extreme Greed"
  else if value ≥ 55 then "Greed"
  else if value ≥ 45 then "Neutral"
  else if value ≥ 25 then "Fear"
  else "Extreme Fear"

/-- Return shape of the workflow copy of `generateFallbackSentiment`. -/
structure FallbackSentiment where
  sentiment : Sentiment
  score : ℚ
  fear_greed_value : ℕ
  deriving DecidableEq, Repr

/-- Model of `generateFallbackSentiment` as defined in crypto-workflow.ts:
pseudo-index from the symbol char codes and the hour bucket of `Date.now()`,
volatility adjustment whenever the local hour is in 9..16 (no weekday
check), clamped to [0, 100]. -/
def wfGenerateFallbackSentiment (symbol : String) (nowMs hour : ℕ) :
    FallbackSentiment :=
  let symbolHash := charCodeSum symbol
  let timeHash := (nowMs / (1000 * 60 * 60)) % 100
  let combinedHash := (symbolHash + timeHash) % 100
  let adjustedValue :=
    if 9 ≤ hour ∧ hour ≤ 16 then ((combinedHash : ℤ) - 50).natAbs + 30
    else combinedHash
  let fearGreedValue := max 0 (min 100 adjustedValue)
  let ss := convertToSentiment (fearGreedValue : ℚ)
  { sentiment := ss.sentiment, score := ss.score,
    fear_greed_value := fearGreedValue }

/-- Return shape of the tool copy of `generateFallbackSentiment`
(getSentimentScore.ts). -/
structure ToolFallbackSentiment where
  symbol : String
  sentiment : Sentiment
  score : ℚ
  confidence : ℚ
  fear_greed_value : ℕ
  analysis : String
  error : Option String
  deriving DecidableEq, Repr

/-- Model of `generateFallbackSentiment` as defined in getSentimentScore.ts: same
hash, but the volatility adjustment additionally requires the weekday
(`getDay()` in 1..5). -/
def toolGenerateFallbackSentiment (symbol : String)
    (nowMs hour dayOfWeek : ℕ) : ToolFallbackSentiment :=
  let symbolHash := charCodeSum symbol
  let timeHash := (nowMs / (1000 * 60 * 60)) % 100
  let combinedHash := (symbolHash + timeHash) % 100
  let adjustedValue :=
    if 9 ≤ hour ∧ hour ≤ 16 ∧ 1 ≤ dayOfWeek ∧ dayOfWeek ≤ 5 then
      ((combinedHash : ℤ) - 50).natAbs + 30
    else combinedHash
  let fearGreedValue := max 0 (min 100 adjustedValue)
  let ss := convertToSentiment (fearGreedValue : ℚ)
  let classification := getFearGreedClassification (fearGreedValue : ℚ)
  { symbol := symbol, sentiment := ss.sentiment, score := ss.score,
    confidence := 3 / 10,
    fear_greed_value := fearGreedValue,
    analysis := "Using fallback sentiment analysis for " ++ symbol ++
      ". Estimated Fear & Greed Index: " ++ toString fearGreedValue ++
      "/100 (" ++ classification ++ "). This indicates " ++
      sentimentLabel ss.sentiment ++
      " market sentiment. Note: This is a fallback calculation due to API unavailability.",
    error := some "Primary sentiment API unavailable, using fallback calculation" }

/-- Pseudo-index formula asserted by the spec for the sentiment fallback
path (claim C4): `clamp(adjusted, 0, 100)` where
`base = (sum of char codes + floor(now / 3600000)) mod 100` and
`adjusted = abs(base - 50) + 30` exactly when the hour is in 9..16.
Stated from the words of the spec, for comparison with the code. -/
def claimFallbackValue (symbol : String) (nowMs hour : ℕ) : ℕ :=
  let base := (charCodeSum symbol + (nowMs / 3600000) % 100) % 100
  let adjusted :=
    if 9 ≤ hour ∧ hour ≤ 16 then ((base : ℤ) - 50).natAbs + 30 else base
  max 0 (min 100 adjusted)

/-- Outcome of one `fetch` plus `response.json()` call, as seen by the
caller.  `abort` is a timeout (AbortError, carrying the host message),
`thrown` is any other rejection or a `json()` failure, `resp` is a settled
response; a `none` body stands for a decoded value failing the
"non-null object" checks. -/
inductive FetchOutcome (β : Type) where
  | abort (msg : String)
  | thrown (msg : String)
  | resp (ok : Bool) (status : ℕ) (statusText : String) (body : Option β)
  deriving DecidableEq

/-- Network requests a stage can issue (the observable side effect). -/
inductive Request where
  | price (id : String)
  | sentiment
  | news (id : String)
  deriving DecidableEq, Repr

/-- The `data` object of the CoinCap rates response; fields the code
defends against with `||` or falsiness checks are optional. -/
structure RatesData where
  id : Option String
  symbol : Option String
  rateUsd : Option String
  deriving DecidableEq

/-- Decoded body of the CoinCap rates response. -/
structure RatesBody where
  data : Option RatesData
  deriving DecidableEq

/-- World supplied to a price fetch: the `COINCAP_API_KEY` environment
variable, the HTTP outcome, and the host `parseFloat` (none = NaN). -/
structure PriceEnv where
  coincapKey : Option String
  http : FetchOutcome RatesBody
  pf : String → Option ℚ

/-- Characters of the `[<>{}[\]\\\/]` denylist regex, by code point:
less-than, greater-than, both braces, both square brackets, backslash,
slash. -/
def invalidIdChars : List Char :=
  [Char.ofNat 60, Char.ofNat 62, Char.ofNat 123, Char.ofNat 125,
   Char.ofNat 91, Char.ofNat 93, Char.ofNat 92, Char.ofNat 47]

/-- Test of the denylist-character regex. -/
def hasInvalidIdChar (s : String) : Bool :=
  s.data.any (fun c => invalidIdChars.contains c)

/-- Test of the whitespace-only regex. -/
def isWhitespaceOnly (s : String) : Bool := s.data.all Char.isWhitespace

/-- Test of the digits-only regex `[0-9]+`. -/
def isDigitsOnly (s : String) : Bool :=
  !s.isEmpty && s.data.all Char.isDigit

/-- Disjunction of the three `invalidPatterns` regexes applied to the
normalized identifier. -/
def matchesInvalidIdPattern (s : String) : Bool :=
  hasInvalidIdChar s || isWhitespaceOnly s || isDigitsOnly s

/-- Message `Invalid cryptocurrency ID format: then the quoted raw id`. -/
def invalidIdFormatMsg (cid : String) : String :=
  "Invalid cryptocurrency ID format: " ++ sq ++ cid ++ sq

/-- Workflow 404 message. -/
def wfNotFoundMsg (cid : String) : String :=
  "Cryptocurrency " ++ sq ++ cid ++ sq ++
    " not found. Please verify the cryptocurrency identifier."

/-- Message for a response whose `data` field is missing. -/
def notInDbMsg (cid : String) : String :=
  "Cryptocurrency " ++ sq ++ cid ++ sq ++ " not found in CoinCap database"

/-- Message for a missing or non-numeric `rateUsd`. -/
def invalidPriceDataMsg (cid : String) : String :=
  "Invalid price data received for " ++ sq ++ cid ++ sq

/-- Message for a nonpositive parsed price. -/
def invalidPriceValueMsg (cid : String) (p : ℚ) : String :=
  "Invalid price value for " ++ sq ++ cid ++ sq ++ ": " ++ toString p

/-- Input record of the workflow (crypto_id, crypto_symbol, news_limit). -/
structure WorkflowInput where
  crypto_id : String
  crypto_symbol : String
  news_limit : ℚ
  deriving DecidableEq

/-- Output record of workflow step 1 (`fetch-crypto-price`), per its
output schema. -/
structure Stage1Out where
  crypto_id : String
  crypto_symbol : String
  news_limit : ℚ
  name : String
  symbol : String
  priceUsd : String
  changePercent24Hr : Option String
  error : Option String
  deriving DecidableEq

/-- Try-block of the workflow `fetchCryptoPrice` step: input validation,
credential check, fetch, HTTP status classification, body validation,
price validation; paired with the requests issued so far. -/
def fetchCryptoPriceTry (inp : WorkflowInput) (env : PriceEnv) :
    Except String Stage1Out × List Request :=
  if jsTrim inp.crypto_id = "" then
    (.error "Invalid cryptocurrency ID provided", [])
  else if jsTrim inp.crypto_symbol = "" then
    (.error "Invalid cryptocurrency symbol provided", [])
  else if matchesInvalidIdPattern (jsTrim (jsToLower inp.crypto_id)) then
    (.error (invalidIdFormatMsg inp.crypto_id), [])
  else
    match env.coincapKey with
    | none => (.error "COINCAP_API_KEY environment variable is required", [])
    | some _ =>
      match env.http with
      | .abort m =>
        (.error m, [Request.price (jsTrim (jsToLower inp.crypto_id))])
      | .thrown m =>
        (.error m, [Request.price (jsTrim (jsToLower inp.crypto_id))])
      | .resp ok status statusText body =>
        if ok = false then
          if status = 404 then
            (.error (wfNotFoundMsg inp.crypto_id),
             [Request.price (jsTrim (jsToLower inp.crypto_id))])
          else if status = 429 then
            (.error "Rate limit exceeded. Please try again in a few moments.",
             [Request.price (jsTrim (jsToLower inp.crypto_id))])
          else if 500 ≤ status then
            (.error "CoinCap API is temporarily unavailable. Please try again later.",
             [Request.price (jsTrim (jsToLower inp.crypto_id))])
          else
            (.error ("Failed to fetch crypto data: " ++ toString status ++
              " " ++ statusText),
             [Request.price (jsTrim (jsToLower inp.crypto_id))])
        else
          match body with
          | none =>
            (.error "Invalid response format from CoinCap API",
             [Request.price (jsTrim (jsToLower inp.crypto_id))])
          | some b =>
            match b.data with
            | none =>
              (.error (notInDbMsg inp.crypto_id),
               [Request.price (jsTrim (jsToLower inp.crypto_id))])
            | some d =>
              match d.rateUsd with
              | none =>
                (.error (invalidPriceDataMsg inp.crypto_id),
                 [Request.price (jsTrim (jsToLower inp.crypto_id))])
              | some r =>
                if r = "" then
                  (.error (invalidPriceDataMsg inp.crypto_id),
                   [Request.price (jsTrim (jsToLower inp.crypto_id))])
                else
                  match env.pf r with
                  | none =>
                    (.error (invalidPriceDataMsg inp.crypto_id),
                     [Request.price (jsTrim (jsToLower inp.crypto_id))])
                  | some price =>
                    if price ≤ 0 then
                      (.error (invalidPriceValueMsg inp.crypto_id price),
                       [Request.price (jsTrim (jsToLower inp.crypto_id))])
                    else
                      (.ok { crypto_id := jsTrim (jsToLower inp.crypto_id),
                             crypto_symbol := jsTrim (jsToUpper inp.crypto_symbol),
                             news_limit := jsMaxQ 1 (jsMinQ 20 (jsOrNum inp.news_limit 3)),
                             name := jsOrStrO d.id (jsTrim (jsToLower inp.crypto_id)),
                             symbol := jsOrStrO d.symbol (jsTrim (jsToUpper inp.crypto_symbol)),
                             priceUsd := r,
                             changePercent24Hr := some "N/A",
                             error := none },
                       [Request.price (jsTrim (jsToLower inp.crypto_id))])

/-- Catch branch of the workflow `fetchCryptoPrice` step: a degraded
zero-price record carrying the thrown message. -/
def wfPriceErrorOut (inp : WorkflowInput) (msg : String) : Stage1Out :=
  { crypto_id := jsOrStr inp.crypto_id "unknown",
    crypto_symbol := jsOrStr inp.crypto_symbol "UNKNOWN",
    news_limit := jsOrNum inp.news_limit 3,
    name := jsOrStr inp.crypto_id "unknown",
    symbol := jsOrStr inp.crypto_symbol "UNKNOWN",
    priceUsd := "0",
    changePercent24Hr := some "N/A",
    error := some msg }

/-- The whole `execute` of workflow step 1: try body plus catch. -/
def fetchCryptoPriceExec (inp : WorkflowInput) (env : PriceEnv) :
    Stage1Out × List Request :=
  match fetchCryptoPriceTry inp env with
  | (.ok out, reqs) => (out, reqs)
  | (.error msg, reqs) => (wfPriceErrorOut inp msg, reqs)

/-- Output record of the `getCryptoPrice` tool. -/
structure ToolPriceOut where
  name : String
  symbol : String
  priceUsd : String
  changePercent24Hr : Option String
  error : Option String
  deriving DecidableEq

/-- Tool 404 message. -/
def toolNotFoundMsg (cid : String) : String :=
  "Cryptocurrency " ++ sq ++ cid ++ sq ++
    " not found. Please check the spelling and try again."

/-- Tool generic HTTP-status message. -/
def toolFailedMsg (cid : String) (status : ℕ) (statusText : String) : String :=
  "Failed to fetch crypto data for " ++ cid ++ ": " ++ toString status ++
    " " ++ statusText

/-- Tool timeout message (AbortError rethrown with a new message). -/
def toolTimeoutMsg (cid : String) : String :=
  "Request timeout while fetching data for " ++ sq ++ cid ++ sq ++
    ". Please try again."

/-- Model of `getPrice` from getCryptoPrice.ts: throws (returns `.error`) on every
failure, returns a price record without an error field on success. -/
def getPrice (cid : String) (env : PriceEnv) : Except String ToolPriceOut :=
  if cid = "" then .error "Invalid cryptocurrency ID provided"
  else
    if jsTrim (jsToLower cid) = "" then
      .error "Cryptocurrency ID cannot be empty"
    else if matchesInvalidIdPattern (jsTrim (jsToLower cid)) then
      .error (invalidIdFormatMsg cid)
    else
      match env.coincapKey with
      | none => .error "COINCAP_API_KEY environment variable is required"
      | some _ =>
        match env.http with
        | .abort _ => .error (toolTimeoutMsg cid)
        | .thrown m => .error m
        | .resp ok status statusText body =>
          if ok = false then
            if status = 404 then .error (toolNotFoundMsg cid)
            else if status = 429 then
              .error "Rate limit exceeded. Please try again in a few moments."
            else if 500 ≤ status then
              .error "CoinCap API is temporarily unavailable. Please try again later."
            else .error (toolFailedMsg cid status statusText)
          else
            match body with
            | none => .error "Invalid response format from CoinCap API"
            | some b =>
              match b.data with
              | none => .error (notInDbMsg cid)
              | some d =>
                match d.rateUsd with
                | none => .error (invalidPriceDataMsg cid)
                | some r =>
                  if r = "" then .error (invalidPriceDataMsg cid)
                  else
                    match env.pf r with
                    | none => .error (invalidPriceDataMsg cid)
                    | some price =>
                      if price ≤ 0 then
                        .error (invalidPriceValueMsg cid price)
                      else
                        .ok { name := jsOrStrO d.id cid,
                              symbol := jsOrStrO d.symbol (jsToUpper cid),
                              priceUsd := r,
                              changePercent24Hr := some "N/A",
                              error := none }

/-- The `execute` of the `getCryptoPrice` tool: normalize, delegate to
`getPrice`, and convert any thrown message into a structured zero-price
record. -/
def getCryptoPriceExec (cid : String) (env : PriceEnv) : ToolPriceOut :=
  let tryResult : Except String ToolPriceOut :=
    if jsTrim (jsToLower cid) = "" then
      .error "Cryptocurrency ID cannot be empty or whitespace only"
    else getPrice (jsTrim (jsToLower cid)) env
  match tryResult with
  | .ok out => out
  | .error msg =>
    { name := cid, symbol := "UNKNOWN", priceUsd := "0",
      changePercent24Hr := some "N/A", error := some msg }

/-- The `status` object of the CoinMarketCap Fear and Greed response. -/
structure CmcStatus where
  error_code : String
  error_message : Option String
  deriving DecidableEq

/-- One entry of the CoinMarketCap `data` array; `value` is `none` when it
is not a number. -/
structure CmcDataPoint where
  value : Option ℚ
  value_classification : Option String
  deriving DecidableEq

/-- Decoded body of the CoinMarketCap response. -/
structure CmcBody where
  status : Option CmcStatus
  data : Option (List CmcDataPoint)
  deriving DecidableEq

/-- World supplied to the workflow sentiment step: the
`COINMARKETCAP_API_KEY` variable, the HTTP outcome, `Date.now()` in
milliseconds and the local hour from `getHours()`. -/
structure SentimentEnv where
  cmcKey : Option String
  http : FetchOutcome CmcBody
  nowMs : ℕ
  hour : ℕ

/-- Output record of workflow step 2 (`fetch-sentiment-score`), per its
output schema: all step-1 fields are kept, the step-1 `error` travels on
as `price_error`. -/
structure Stage2Out where
  crypto_id : String
  crypto_symbol : String
  news_limit : ℚ
  name : String
  symbol : String
  priceUsd : String
  changePercent24Hr : Option String
  sentiment : Sentiment
  score : ℚ
  fearGreedValue : ℚ
  classification : String
  price_error : Option String
  sentiment_error : Option String
  deriving DecidableEq

/-- Try-block of the workflow `fetchSentimentScore` step.  A missing
credential is an early `return` (not a throw): a fixed neutral record with
value 50.  Every other failure throws and lands in the catch branch. -/
def fetchSentimentTry (inp : Stage1Out) (env : SentimentEnv) :
    Except String Stage2Out × List Request :=
  if inp.crypto_symbol = "" then
    (.error "Invalid cryptocurrency symbol for sentiment analysis", [])
  else
    match env.cmcKey with
    | none =>
      (.ok { crypto_id := inp.crypto_id, crypto_symbol := inp.crypto_symbol,
             news_limit := inp.news_limit, name := inp.name,
             symbol := inp.symbol, priceUsd := inp.priceUsd,
             changePercent24Hr := inp.changePercent24Hr,
             sentiment := .neutral, score := 0, fearGreedValue := 50,
             classification := "Neutral (API Unavailable)",
             price_error := inp.error,
             sentiment_error := some "API key not configured, using fallback sentiment" },
       [])
    | some _ =>
      let reqs := [Request.sentiment]
      match env.http with
      | .abort m => (.error m, reqs)
      | .thrown m => (.error m, reqs)
      | .resp ok status _statusText body =>
        if ok = false then
          (.error (if status = 401 then "Invalid CoinMarketCap API key"
            else if status = 429 then "CoinMarketCap API rate limit exceeded"
            else if 500 ≤ status then "CoinMarketCap API temporarily unavailable"
            else "CoinMarketCap API error: " ++ toString status), reqs)
        else
          match body with
          | none => (.error "Invalid response format from CoinMarketCap API", reqs)
          | some b =>
            match b.status with
            | none => (.error "Invalid response format from CoinMarketCap API", reqs)
            | some st =>
              if st.error_code ≠ "0" then
                (.error ("API Error: " ++
                  jsOrStrO st.error_message "Unknown CoinMarketCap error"), reqs)
              else
                match b.data with
                | none => (.error "No Fear & Greed data available", reqs)
                | some [] => (.error "No Fear & Greed data available", reqs)
                | some (latest :: _) =>
                  match latest.value with
                  | none => (.error "Invalid Fear & Greed data format", reqs)
                  | some v =>
                    if v < 0 ∨ 100 < v then
                      (.error ("Invalid Fear & Greed value: " ++ toString v), reqs)
                    else
                      (.ok { crypto_id := inp.crypto_id,
                             crypto_symbol := inp.crypto_symbol,
                             news_limit := inp.news_limit, name := inp.name,
                             symbol := inp.symbol, priceUsd := inp.priceUsd,
                             changePercent24Hr := inp.changePercent24Hr,
                             sentiment := (convertToSentiment v).sentiment,
                             score := (convertToSentiment v).score,
                             fearGreedValue := v,
                             classification := jsOrStrO latest.value_classification
                               (getFearGreedClassification v),
                             price_error := inp.error,
                             sentiment_error := none }, reqs)

/-- The whole `execute` of workflow step 2: try body plus catch; the catch
branch uses `generateFallbackSentiment`, replaces a falsy (zero) fallback
value by 50 via `||`, and hardcodes the classification string. -/
def fetchSentimentExec (inp : Stage1Out) (env : SentimentEnv) :
    Stage2Out × List Request :=
  match fetchSentimentTry inp env with
  | (.ok out, reqs) => (out, reqs)
  | (.error msg, reqs) =>
    let fb := wfGenerateFallbackSentiment (jsOrStr inp.crypto_symbol "UNKNOWN")
      env.nowMs env.hour
    ({ crypto_id := inp.crypto_id, crypto_symbol := inp.crypto_symbol,
       news_limit := inp.news_limit, name := inp.name, symbol := inp.symbol,
       priceUsd := inp.priceUsd, changePercent24Hr := inp.changePercent24Hr,
       sentiment := fb.sentiment, score := fb.score,
       fearGreedValue := jsOrNum (fb.fear_greed_value : ℚ) 50,
       classification := "Neutral (Fallback)",
       price_error := inp.error, sentiment_error := some msg }, reqs)

/-- Raw article shape the workflow news step reads from the provider
(fields typed as present by its cast; `description` is defended with
`|| ""`). -/
structure WfRawArticle where
  title : String
  description : Option String
  url : String
  publishedAt : String
  sourceName : String
  deriving DecidableEq

/-- Decoded body of the news provider response for the workflow step. -/
structure NewsBody where
  articles : Option (List WfRawArticle)
  deriving DecidableEq

/-- World supplied to the workflow news step: the `NEWS_API_KEY` variable
and the HTTP outcome. -/
structure NewsEnv where
  newsKey : Option String
  http : FetchOutcome NewsBody
  deriving DecidableEq

/-- Article shape produced by the workflow news step and by the
`getCryptoNews` tool. -/
structure NewsArticle where
  title : String
  description : String
  url : String
  publishedAt : String
  source : String
  deriving DecidableEq

/-- The `priceData` sub-record of workflow step 3 output. -/
structure PriceData where
  name : String
  symbol : String
  priceUsd : String
  changePercent24Hr : Option String
  deriving DecidableEq

/-- The `sentimentData` sub-record of workflow step 3 output. -/
structure SentimentData where
  sentiment : Sentiment
  score : ℚ
  fearGreedValue : ℚ
  classification : String
  deriving DecidableEq

/-- Output record of workflow step 3 (`fetch-crypto-news`), per its output
schema: restructured price and sentiment data plus articles, and no error
fields of any kind. -/
structure Stage3Out where
  priceData : PriceData
  sentimentData : SentimentData
  articles : List NewsArticle
  deriving DecidableEq

/-- The whole `execute` of workflow step 3: articles stay empty when the
credential is missing, the call fails, the response is not ok, or the body
has no usable `articles` array; fetched articles are passed through with
no sanitization (only a missing description is defaulted to the empty
string). -/
def fetchCryptoNewsExec (inp : Stage2Out) (env : NewsEnv) :
    Stage3Out × List Request :=
  let fetched : List NewsArticle × List Request :=
    match env.newsKey with
    | none => ([], [])
    | some _ =>
      let reqs := [Request.news inp.crypto_id]
      match env.http with
      | .abort _ => ([], reqs)
      | .thrown _ => ([], reqs)
      | .resp ok _status _statusText body =>
        if ok = false then ([], reqs)
        else
          match body with
          | none => ([], reqs)
          | some b =>
            match b.articles with
            | none => ([], reqs)
            | some arts =>
              (arts.map (fun a =>
                { title := a.title,
                  description := jsOrStrO a.description "",
                  url := a.url,
                  publishedAt := a.publishedAt,
                  source := a.sourceName }), reqs)
  ({ priceData := { name := inp.name, symbol := inp.symbol,
                    priceUsd := inp.priceUsd,
                    changePercent24Hr := inp.changePercent24Hr },
     sentimentData := { sentiment := inp.sentiment, score := inp.score,
                        fearGreedValue := inp.fearGreedValue,
                        classification := inp.classification },
     articles := fetched.1 }, fetched.2)

/-- World supplied to the compile step: the streamed language-model answer
(an external collaborator, modelled as an oracle string) and
`new Date().toISOString()`. -/
structure CompileEnv where
  agentAnalysis : String
  nowIso : String
  deriving DecidableEq

/-- The `crypto_info` sub-record of the final report. -/
structure CryptoInfo where
  name : String
  symbol : String
  price_usd : String
  change_24h : Option String
  deriving DecidableEq

/-- The `sentiment_analysis` sub-record of the final report. -/
structure SentimentAnalysisOut where
  sentiment : Sentiment
  score : ℚ
  fear_greed_value : ℚ
  classification : String
  deriving DecidableEq

/-- Article shape of the final report (`published_at` renaming). -/
structure ReportArticle where
  title : String
  description : String
  url : String
  published_at : String
  source : String
  deriving DecidableEq

/-- Final output of workflow step 4 (`compile-analysis`): the terminal
`AnalysisReport`.  It has no error fields. -/
structure AnalysisReport where
  analysis : String
  crypto_info : CryptoInfo
  sentiment_analysis : SentimentAnalysisOut
  latest_news : List ReportArticle
  timestamp : String
  deriving DecidableEq

/-- The `execute` of workflow step 4: merge the three upstream records
into the report; prose generation is delegated to the external agent. -/
def compileAnalysisExec (inp : Stage3Out) (env : CompileEnv) : AnalysisReport :=
  { analysis := env.agentAnalysis,
    crypto_info := { name := inp.priceData.name,
                     symbol := inp.priceData.symbol,
                     price_usd := inp.priceData.priceUsd,
                     change_24h := inp.priceData.changePercent24Hr },
    sentiment_analysis := { sentiment := inp.sentimentData.sentiment,
                            score := inp.sentimentData.score,
                            fear_greed_value := inp.sentimentData.fearGreedValue,
                            classification := inp.sentimentData.classification },
    latest_news := inp.articles.map (fun a =>
      { title := a.title, description := a.description, url := a.url,
        published_at := a.publishedAt, source := a.source }),
    timestamp := env.nowIso }

/-- Boolean prefix test on character lists. -/
def isPrefixOfChars : List Char → List Char → Bool
  | [], _ => true
  | _ :: _, [] => false
  | a :: as, b :: bs => a = b && isPrefixOfChars as bs

/-- Boolean contiguous-sublist test (JS `String.prototype.includes`). -/
def hasSubChars (needle : List Char) : List Char → Bool
  | [] => needle.isEmpty
  | c :: rest => isPrefixOfChars needle (c :: rest) || hasSubChars needle rest

/-- JS `hay.includes(needle)`. -/
def containsSub (hay needle : String) : Bool := hasSubChars needle.data hay.data

/-- Case-insensitive prefix test on character lists. -/
def isPrefixOfCharsCI : List Char → List Char → Bool
  | [], _ => true
  | _ :: _, [] => false
  | a :: as, b :: bs => a.toLower = b.toLower && isPrefixOfCharsCI as bs

/-- Case-insensitive substring test (`/pat/i.test(s)` for a literal
pattern). -/
def containsSubCI (hay needle : String) : Bool :=
  hasSubChars (needle.data.map Char.toLower) (hay.data.map Char.toLower)

/-- First-match replacement for the regex alternation
`/Bitcoin|Ethereum|DeFi/i`: scan left to right, replace the first
case-insensitive occurrence of one of the three words, leave the rest. -/
def replaceFirstBED (repl : List Char) : List Char → List Char
  | [] => []
  | c :: rest =>
    if isPrefixOfCharsCI "bitcoin".data (c :: rest) then
      repl ++ (c :: rest).drop 7
    else if isPrefixOfCharsCI "ethereum".data (c :: rest) then
      repl ++ (c :: rest).drop 8
    else if isPrefixOfCharsCI "defi".data (c :: rest) then
      repl ++ (c :: rest).drop 4
    else c :: replaceFirstBED repl rest

/-- JS `s.replace(/Bitcoin|Ethereum|DeFi/i, repl)`. -/
def jsReplaceBED (s repl : String) : String :=
  String.mk (replaceFirstBED repl.data s.data)

/-- JS `query.charAt(0).toUpperCase() + query.slice(1)`. -/
def capitalizeFirst (s : String) : String :=
  match s.data with
  | [] => ""
  | c :: rest => String.mk (c.toUpper :: rest)

/-- State machine for the regex `/\x7b.*\x7d/` (JSON-injection check):
true when some opening brace is followed by a closing brace with no line
terminator in between (`.` does not match a line terminator). -/
def bracePairAux (seenOpen : Bool) : List Char → Bool
  | [] => false
  | c :: rest =>
    if c = Char.ofNat 10 ∨ c = Char.ofNat 13 then bracePairAux false rest
    else if c = Char.ofNat 123 then bracePairAux true rest
    else if seenOpen && c = Char.ofNat 125 then true
    else bracePairAux seenOpen rest

/-- Test of the JSON-injection regex. -/
def hasBracePair (s : String) : Bool := bracePairAux false s.data

/-- Disjunction of the `dangerousPatterns` regexes of the news tool. -/
def hasDangerousPattern (q : String) : Bool :=
  containsSubCI q "<script" || containsSubCI q "javascript:" ||
  containsSubCI q "data:" || containsSubCI q "vbscript:" ||
  containsSubCI q "<iframe" || hasBracePair q

/-- Raw article shape the news tool reads from NewsAPI; every field is
defended, so every field is optional. -/
structure NewsToolRawArticle where
  title : Option String
  description : Option String
  url : Option String
  publishedAt : Option String
  sourceName : Option String
  deriving DecidableEq

/-- Decoded body of the NewsAPI response as the tool reads it. -/
structure NewsApiBody where
  jsStatus : Option String
  message : Option String
  articles : Option (List NewsToolRawArticle)
  deriving DecidableEq

/-- World supplied to the `getCryptoNews` tool: the `NEWSAPI_KEY`
variable, the HTTP outcome, the host URL parser (protocol of a
successfully constructed `URL`, `none` when the constructor throws), the
host date parser (`getFullYear()` when `getTime()` is not NaN), the
current time and the host ISO-8601 formatter. -/
structure NewsToolEnv where
  newsapiKey : Option String
  http : FetchOutcome NewsApiBody
  urlProtocol : String → Option String
  dateYear : String → Option ℤ
  nowMs : ℤ
  isoAt : ℤ → String

/-- Model of `isValidUrl` from getCryptoNews.ts: the string must construct a `URL`
whose protocol is http or https. -/
def isValidUrl (env : NewsToolEnv) (u : Option String) : Bool :=
  match u with
  | none => false
  | some s =>
    if s = "" then false
    else
      match env.urlProtocol s with
      | none => false
      | some p => p = "http:" || p = "https:"

/-- Model of `isValidDate` from getCryptoNews.ts: the string must parse to a date
whose year is strictly greater than 2000. -/
def isValidDate (env : NewsToolEnv) (d : Option String) : Bool :=
  match d with
  | none => false
  | some s =>
    if s = "" then false
    else
      match env.dateYear s with
      | none => false
      | some y => decide (2000 < y)

/-- Per-article sanitization of the news tool live path: defaulted and
length-capped title, description and source; placeholder `#` for an
invalid url; current timestamp for an invalid date. -/
def sanitizeNewsArticle (env : NewsToolEnv) (a : NewsToolRawArticle) :
    NewsArticle :=
  { title := jsSubstring (jsOrStrO a.title "No title") 200,
    description := jsSubstring (jsOrStrO a.description "No description available") 500,
    url := if isValidUrl env a.url then a.url.getD "" else "#",
    publishedAt := if isValidDate env a.publishedAt then a.publishedAt.getD ""
      else env.isoAt env.nowMs,
    source := jsSubstring (jsOrStrO a.sourceName "Unknown") 100 }

/-- Result shape of the news tool. -/
structure NewsToolResult where
  articles : List NewsArticle
  source : Option String
  error : Option String
  deriving DecidableEq

/-- The six `baseArticles` of the templated fallback tier, with their
literal contents and staggered timestamps. -/
def fallbackBaseArticles (env : NewsToolEnv) (query : String) :
    List NewsArticle :=
  [ { title := capitalizeFirst query ++ " Market Analysis: Key Trends and Developments",
      description := "Comprehensive analysis of " ++ query ++
        " market trends, showing recent price movements and market sentiment indicators.",
      url := "https://coindesk.com", publishedAt := env.isoAt env.nowMs,
      source := "CoinDesk" },
    { title := "Bitcoin Price Analysis and Market Outlook",
      description := "Technical analysis reveals key support and resistance levels for Bitcoin in the current market cycle with implications for the broader crypto market.",
      url := "https://cointelegraph.com",
      publishedAt := env.isoAt (env.nowMs - 3600000),
      source := "Cointelegraph" },
    { title := "Ethereum Network Upgrade and DeFi Impact",
      description := "Latest Ethereum network improvements and their significant impact on the decentralized finance ecosystem and gas fees.",
      url := "https://decrypt.co",
      publishedAt := env.isoAt (env.nowMs - 7200000),
      source := "Decrypt" },
    { title := "Global Crypto Regulation Updates and Market Response",
      description := "Recent regulatory developments affecting the cryptocurrency industry globally, including new policies from major economies.",
      url := "https://coindesk.com",
      publishedAt := env.isoAt (env.nowMs - 10800000),
      source := "CoinDesk" },
    { title := "DeFi Protocol Security Analysis and Best Practices",
      description := "In-depth security considerations and best practices for decentralized finance protocols following recent security incidents.",
      url := "https://theblock.co",
      publishedAt := env.isoAt (env.nowMs - 14400000),
      source := "The Block" },
    { title := "Institutional Adoption of Cryptocurrency Continues",
      description := "Major corporations and financial institutions continue to adopt cryptocurrency solutions, driving mainstream acceptance.",
      url := "https://coindesk.com",
      publishedAt := env.isoAt (env.nowMs - 18000000),
      source := "CoinDesk" } ]

/-- Query-specific customization of a templated article. -/
def customizeFallbackArticle (query : String) (a : NewsArticle) : NewsArticle :=
  { a with
    title := if containsSub a.title query then a.title
      else jsReplaceBED a.title (capitalizeFirst query),
    description := if containsSub a.description query then a.description
      else a.description ++ " Analysis focuses on " ++ query ++
        " market dynamics." }

/-- The single last-resort article. -/
def lastResortArticle (env : NewsToolEnv) : NewsArticle :=
  { title := "Crypto News Service Temporarily Unavailable",
    description := "Unable to fetch crypto news at the moment due to service issues. Please try again later or check major crypto news websites directly.",
    url := "#", publishedAt := env.isoAt env.nowMs,
    source := "System Notice" }

/-- Model of `fetchCryptoNewsFromAlternativeSource`: templated fallback tier; its
own catch produces the last-resort error tier with exactly one article. -/
def fetchCryptoNewsFromAlternativeSource (query : String) (limit : ℚ)
    (env : NewsToolEnv) : NewsToolResult :=
  if query = "" ∨ jsTrim query = "" then
    { articles := [lastResortArticle env], source := some "error",
      error := some "Invalid query for fallback news source" }
  else
    { articles := ((fallbackBaseArticles env query).map
        (customizeFallbackArticle query)).take
          (jsSliceCount (jsMinQ (if limit < 1 ∨ 20 < limit then 5 else limit) 6)),
      source := some "fallback",
      error := some "Primary news source unavailable, using fallback content" }

/-- Model of `fetchCryptoNewsWithFallback`: live NewsAPI tier with truncation and
sanitization; every failure (missing key, abort, throw, bad status, error
body, missing array, zero valid articles) falls back to the alternative
source.  The source `filter` keeping non-null objects is the identity
here because modelled articles are records. -/
def fetchCryptoNewsWithFallback (query : String) (limit : ℚ)
    (env : NewsToolEnv) : NewsToolResult :=
  match env.newsapiKey with
  | none => fetchCryptoNewsFromAlternativeSource query limit env
  | some _ =>
    match env.http with
    | .abort _ => fetchCryptoNewsFromAlternativeSource query limit env
    | .thrown _ => fetchCryptoNewsFromAlternativeSource query limit env
    | .resp ok _status _statusText body =>
      if ok = false then fetchCryptoNewsFromAlternativeSource query limit env
      else
        match body with
        | none => fetchCryptoNewsFromAlternativeSource query limit env
        | some b =>
          if b.jsStatus = some "error" then
            fetchCryptoNewsFromAlternativeSource query limit env
          else
            match b.articles with
            | none => fetchCryptoNewsFromAlternativeSource query limit env
            | some raw =>
              if ((raw.take (jsSliceCount limit)).map
                  (sanitizeNewsArticle env)).length = 0 then
                fetchCryptoNewsFromAlternativeSource query limit env
              else
                { articles := (raw.take (jsSliceCount limit)).map
                    (sanitizeNewsArticle env),
                  source := some "NewsAPI", error := none }

/-- Input context of the `getCryptoNews` tool (both fields optional). -/
structure NewsToolContext where
  query : Option String
  limit : Option ℚ

/-- The `execute` of the `getCryptoNews` tool: query defaulting and trimming,
limit clamping to [1, 20] with default 5, dangerous-pattern rejection
(producing the structured one-article error answer), then the tiered
fetch. -/
def getCryptoNewsExec (ctx : NewsToolContext) (env : NewsToolEnv) :
    NewsToolResult :=
  if jsOrStrO (ctx.query.map jsTrim) "cryptocurrency" = "" then
    { articles := [ { title := "Error Fetching News",
                      description := "Search query cannot be empty",
                      url := "#", publishedAt := env.isoAt env.nowMs,
                      source := "System Error" } ],
      error := some "Search query cannot be empty", source := some "fallback" }
  else if hasDangerousPattern (jsOrStrO (ctx.query.map jsTrim) "cryptocurrency") then
    { articles := [ { title := "Error Fetching News",
                      description := "Invalid characters in search query",
                      url := "#", publishedAt := env.isoAt env.nowMs,
                      source := "System Error" } ],
      error := some "Invalid characters in search query",
      source := some "fallback" }
  else
    fetchCryptoNewsWithFallback (jsOrStrO (ctx.query.map jsTrim) "cryptocurrency")
      (jsMaxQ 1 (jsMinQ 20 (jsOrNumO ctx.limit 5))) env

/-- Workflow input `bitcoin`, `BTC`, limit 3. -/
def sampleInput : WorkflowInput :=
  { crypto_id := "bitcoin", crypto_symbol := "BTC", news_limit := 3 }

/-- Workflow input with the malformed identifier of the spec scenario. -/
def malformedInput : WorkflowInput :=
  { crypto_id := "../etc", crypto_symbol := "BTC", news_limit := 3 }

/-- Price world with no `COINCAP_API_KEY`. -/
def noKeyPriceEnv : PriceEnv :=
  { coincapKey := none, http := .thrown "network failure",
    pf := fun _ => none }

/-- Price world where everything succeeds with rate `123`. -/
def okPriceEnv : PriceEnv :=
  { coincapKey := some "k",
    http := .resp true 200 "OK"
      (some { data := some { id := some "bitcoin", symbol := some "BTC",
                             rateUsd := some "123" } }),
    pf := fun s => if s = "123" then some 123 else none }

/-- Price world with a key but a failing network call. -/
def failPriceEnv : PriceEnv :=
  { coincapKey := some "k", http := .thrown "network failure",
    pf := fun _ => none }

/-- A successful step-1 output record. -/
def stage1SampleOut : Stage1Out :=
  { crypto_id := "bitcoin", crypto_symbol := "BTC", news_limit := 3,
    name := "bitcoin", symbol := "BTC", priceUsd := "123.45",
    changePercent24Hr := some "N/A", error := none }

/-- Sentiment world with no `COINMARKETCAP_API_KEY`, at epoch, hour 0. -/
def sentEnvNoKey : SentimentEnv :=
  { cmcKey := none, http := .thrown "network failure", nowMs := 0, hour := 0 }

/-- Sentiment world with a key and a failing network call, at epoch, hour 0. -/
def sentEnvKeyFail : SentimentEnv :=
  { cmcKey := some "k", http := .thrown "network failure", nowMs := 0,
    hour := 0 }

/-- A step-2 output with both upstream error annotations set. -/
def stage2SampleA : Stage2Out :=
  { crypto_id := "bitcoin", crypto_symbol := "BTC", news_limit := 3,
    name := "bitcoin", symbol := "BTC", priceUsd := "0",
    changePercent24Hr := some "N/A", sentiment := .neutral, score := 0,
    fearGreedValue := 50, classification := "Neutral (Fallback)",
    price_error := some "network failure",
    sentiment_error := some "network failure" }

/-- The same step-2 output with both error annotations absent. -/
def stage2SampleB : Stage2Out :=
  { stage2SampleA with price_error := none, sentiment_error := none }

/-- News world with no `NEWS_API_KEY`. -/
def plainNewsEnv : NewsEnv :=
  { newsKey := none, http := .thrown "network failure" }

/-- Compile world with a fixed agent answer and timestamp. -/
def plainCompileEnv : CompileEnv :=
  { agentAnalysis := "report text", nowIso := "2025-01-04T12:00:00.000Z" }

/-- A 201-character title. -/
def longTitle : String := String.mk (List.replicate 201 (Char.ofNat 97))

/-- A raw provider article with an over-long title, a non-URL url and a
pre-2000 date. -/
def rawBadArticle : WfRawArticle :=
  { title := longTitle, description := some "d", url := "not-a-url",
    publishedAt := "1999-01-01", sourceName := "S" }

/-- News world whose provider answers 200 with exactly `rawBadArticle`. -/
def newsEnvBad : NewsEnv :=
  { newsKey := some "k",
    http := .resp true 200 "OK" (some { articles := some [rawBadArticle] }) }

/-- News-tool world whose host parsers accept a single specific url and
post-2000 date and reject everything else. -/
def newsToolEnvSample : NewsToolEnv :=
  { newsapiKey := some "k",
    http := .resp true 200 "OK"
      (some { jsStatus := some "ok", message := none,
              articles := some [ { title := some longTitle,
                                   description := some "d",
                                   url := some "not-a-url",
                                   publishedAt := some "1999-01-01",
                                   sourceName := some "S" } ] }),
    urlProtocol := fun s => if s = "https://ok.example" then some "https:" else none,
    dateYear := fun s => if s = "1999-01-01" then some 1999 else none,
    nowMs := 1735992000000,
    isoAt := fun _ => "2025-01-04T12:00:00.000Z" }

end CryptoAgentSpec

namespace CryptoAgentSpec

/-- The executable `Math.max` model is Mathlib's `max`. -/
theorem jsMaxQ_eq_max (a b : ℚ) : jsMaxQ a b = max a b := by
  rw [jsMaxQ, max_def]

/-- The executable `Math.min` model is Mathlib's `min`. -/
theorem jsMinQ_eq_min (a b : ℚ) : jsMinQ a b = min a b := by
  rw [jsMinQ, min_def]

/-- C2: the sentiment conversion rule is implemented exactly: clamped
score `(value - 50) / 50`, bullish at 60 and above, bearish at 40 and
below, neutral strictly between, and the five top-down classification
buckets at 75, 55, 45 and 25; with the five concrete evaluations named by
the claim. -/
theorem C2_sentiment_conversion_exact :
    (∀ value : ℚ, 0 ≤ value → value ≤ 100 →
      ((convertToSentiment value).score = max (-1) (min 1 ((value - 50) / 50)) ∧
       ((convertToSentiment value).sentiment = .bullish ↔ 60 ≤ value) ∧
       ((convertToSentiment value).sentiment = .bearish ↔ value ≤ 40) ∧
       ((convertToSentiment value).sentiment = .neutral ↔ 40 < value ∧ value < 60) ∧
       (getFearGreedClassification value = "Extreme Greed" ↔ 75 ≤ value) ∧
       (getFearGreedClassification value = "Greed" ↔ 55 ≤ value ∧ value < 75) ∧
       (getFearGreedClassification value = "Neutral" ↔ 45 ≤ value ∧ value < 55) ∧
       (getFearGreedClassification value = "Fear" ↔ 25 ≤ value ∧ value < 45) ∧
       (getFearGreedClassification value = "Extreme Fear" ↔ value < 25))) ∧
    (convertToSentiment 60).sentiment = .bullish ∧
    (convertToSentiment 40).sentiment = .bearish ∧
    (convertToSentiment 50).sentiment = .neutral ∧
    (convertToSentiment 100).score = 1 ∧
    (convertToSentiment 0).score = -1 := by
  constructor
  · intro v h0 h100
    refine ⟨?_, ?_, ?_, ?_, ?_, ?_, ?_, ?_, ?_⟩ <;>
      simp only [convertToSentiment, getFearGreedClassification,
        jsMaxQ_eq_max, jsMinQ_eq_min] <;>
      split_ifs <;>
      simp_all <;>
      first
        | rfl
        | linarith
        | (intro h; linarith)
  · exact ⟨by decide, by decide, by decide,
      by norm_num [convertToSentiment, jsMaxQ, jsMinQ],
      by norm_num [convertToSentiment, jsMaxQ, jsMinQ]⟩

/-- C2 witness: the general part of the theorem applied at the concrete
value 62. -/
theorem C2_witness :
    (0 : ℚ) ≤ 62 ∧ (62 : ℚ) ≤ 100 ∧ (convertToSentiment 62).sentiment = .bullish :=
  ⟨by norm_num, by norm_num,
    ((C2_sentiment_conversion_exact.1 62 (by norm_num) (by norm_num)).2.1).mpr
      (by norm_num)⟩

/-- C5 counterexample: at the same instant (Saturday 2025-01-04 12:00 UTC,
hour 12, weekday 6) the two copies of `generateFallbackSentiment` disagree
on the same symbol: the workflow copy applies the trading-hours adjustment
(43, neutral) while the tool copy requires a weekday and returns the raw
hash (37, bearish). -/
theorem C5_counterexample_weekend_divergence :
    (wfGenerateFallbackSentiment "BTC" 1735992000000 12).fear_greed_value = 43 ∧
    (toolGenerateFallbackSentiment "BTC" 1735992000000 12 6).fear_greed_value = 37 ∧
    (wfGenerateFallbackSentiment "BTC" 1735992000000 12).sentiment = .neutral ∧
    (toolGenerateFallbackSentiment "BTC" 1735992000000 12 6).sentiment = .bearish ∧
    (43 : ℕ) ≠ 37 := by
  decide

/-- C5 (amended): the two in-source copies of the fallback sentiment logic
agree on fear-greed value, sentiment and score at every instant whose
local hour is outside 9..16 or whose weekday is in 1..5; they diverge only
during hours 9..16 on weekend days, where only the workflow copy applies
the volatility adjustment. -/
theorem C5_amended_fallback_copies_agree (symbol : String)
    (nowMs hour dayOfWeek : ℕ)
    (h : ¬(9 ≤ hour ∧ hour ≤ 16) ∨ (1 ≤ dayOfWeek ∧ dayOfWeek ≤ 5)) :
    (wfGenerateFallbackSentiment symbol nowMs hour).fear_greed_value =
      (toolGenerateFallbackSentiment symbol nowMs hour dayOfWeek).fear_greed_value ∧
    (wfGenerateFallbackSentiment symbol nowMs hour).sentiment =
      (toolGenerateFallbackSentiment symbol nowMs hour dayOfWeek).sentiment ∧
    (wfGenerateFallbackSentiment symbol nowMs hour).score =
      (toolGenerateFallbackSentiment symbol nowMs hour dayOfWeek).score := by
  simp only [wfGenerateFallbackSentiment, toolGenerateFallbackSentiment]
  by_cases hc : 9 ≤ hour ∧ hour ≤ 16
  · rcases h with h | h
    · exact absurd hc h
    · rw [if_pos hc, if_pos ⟨hc.1, hc.2, h.1, h.2⟩]
      exact ⟨rfl, rfl, rfl⟩
  · rw [if_neg hc, if_neg (fun hcon => hc ⟨hcon.1, hcon.2.1⟩)]
    exact ⟨rfl, rfl, rfl⟩

/-- C5 witness: the amended theorem applied at symbol `ETH`, an early
morning hour and a Saturday. -/
theorem C5_amended_witness :
    (wfGenerateFallbackSentiment "ETH" 1735992000000 3).fear_greed_value =
      (toolGenerateFallbackSentiment "ETH" 1735992000000 3 6).fear_greed_value :=
  (C5_amended_fallback_copies_agree "ETH" 1735992000000 3 6
    (Or.inl (by decide))).1

/-- Both success returns of the sentiment try-block copy every upstream
field unchanged and move the step-1 `error` into `price_error`. -/
theorem sentimentTry_ok_preserves {inp : Stage1Out} {env : SentimentEnv}
    {out : Stage2Out} {reqs : List Request}
    (h : fetchSentimentTry inp env = (.ok out, reqs)) :
    out.crypto_id = inp.crypto_id ∧ out.crypto_symbol = inp.crypto_symbol ∧
    out.news_limit = inp.news_limit ∧ out.name = inp.name ∧
    out.symbol = inp.symbol ∧ out.priceUsd = inp.priceUsd ∧
    out.changePercent24Hr = inp.changePercent24Hr ∧
    out.price_error = inp.error := by
  unfold fetchSentimentTry at h
  repeat' split at h
  all_goals simp_all
  all_goals obtain ⟨h1, h2⟩ := h
  all_goals subst h1
  all_goals simp

/-- C4 counterexample: with the sentiment credential missing, the stage
returns the fixed value 50 (with neutral sentiment and the classification
`Neutral (API Unavailable)`), not the pseudo-index of the claimed formula,
which at symbol `BTC`, epoch time and hour 0 is 17. -/
theorem C4_counterexample_missing_credential :
    (fetchSentimentExec stage1SampleOut sentEnvNoKey).1.fearGreedValue = 50 ∧
    (fetchSentimentExec stage1SampleOut sentEnvNoKey).1.sentiment = .neutral ∧
    (fetchSentimentExec stage1SampleOut sentEnvNoKey).1.classification =
      "Neutral (API Unavailable)" ∧
    claimFallbackValue "BTC" sentEnvNoKey.nowMs sentEnvNoKey.hour = 17 ∧
    (fetchSentimentExec stage1SampleOut sentEnvNoKey).1.fearGreedValue ≠
      ((claimFallbackValue "BTC" sentEnvNoKey.nowMs sentEnvNoKey.hour : ℕ) : ℚ) := by
  have h1 : (fetchSentimentExec stage1SampleOut sentEnvNoKey).1.fearGreedValue
      = 50 := rfl
  have h2 : claimFallbackValue "BTC" sentEnvNoKey.nowMs sentEnvNoKey.hour = 17 := by
    decide
  refine ⟨h1, rfl, rfl, h2, ?_⟩
  rw [h1, h2]
  norm_num

/-- C4 (amended): the workflow sentiment stage has two distinct degraded
paths.  With the credential missing it returns the fixed record
(neutral, score 0, value 50, classification `Neutral (API Unavailable)`).
When the try-block throws (call failure or validation failure) it uses the
claimed pseudo-index formula for sentiment and score, but stores 50
instead of a computed fear-greed value of 0 (a falsy-zero `||` default)
and hardcodes the classification `Neutral (Fallback)` instead of feeding
the value through the classification rule. -/
theorem C4_amended_fallback_paths (inp : Stage1Out) (env : SentimentEnv) :
    (inp.crypto_symbol ≠ "" → env.cmcKey = none →
      ((fetchSentimentExec inp env).1.sentiment = .neutral ∧
       (fetchSentimentExec inp env).1.score = 0 ∧
       (fetchSentimentExec inp env).1.fearGreedValue = 50 ∧
       (fetchSentimentExec inp env).1.classification = "Neutral (API Unavailable)")) ∧
    (∀ msg reqs, fetchSentimentTry inp env = (.error msg, reqs) →
      ((fetchSentimentExec inp env).1.sentiment =
         (convertToSentiment
           ((claimFallbackValue (jsOrStr inp.crypto_symbol "UNKNOWN")
             env.nowMs env.hour : ℕ) : ℚ)).sentiment ∧
       (fetchSentimentExec inp env).1.score =
         (convertToSentiment
           ((claimFallbackValue (jsOrStr inp.crypto_symbol "UNKNOWN")
             env.nowMs env.hour : ℕ) : ℚ)).score ∧
       (fetchSentimentExec inp env).1.fearGreedValue =
         (if ((claimFallbackValue (jsOrStr inp.crypto_symbol "UNKNOWN")
             env.nowMs env.hour : ℕ) : ℚ) = 0 then 50
          else ((claimFallbackValue (jsOrStr inp.crypto_symbol "UNKNOWN")
             env.nowMs env.hour : ℕ) : ℚ)) ∧
       (fetchSentimentExec inp env).1.classification = "Neutral (Fallback)" ∧
       (fetchSentimentExec inp env).1.sentiment_error = some msg)) := by
  constructor
  · intro hsym hkey
    unfold fetchSentimentExec fetchSentimentTry
    rw [if_neg hsym, hkey]
    exact ⟨rfl, rfl, rfl, rfl⟩
  · intro msg reqs htry
    unfold fetchSentimentExec
    rw [htry]
    exact ⟨rfl, rfl, rfl, rfl, rfl⟩

/-- C4 witness: the amended theorem applied on the credential-missing path
and on the network-failure path. -/
theorem C4_amended_witness :
    (fetchSentimentExec stage1SampleOut sentEnvNoKey).1.classification =
      "Neutral (API Unavailable)" ∧
    (fetchSentimentExec stage1SampleOut sentEnvKeyFail).1.classification =
      "Neutral (Fallback)" :=
  ⟨((C4_amended_fallback_paths stage1SampleOut sentEnvNoKey).1
      (by decide) rfl).2.2.2,
   ((C4_amended_fallback_paths stage1SampleOut sentEnvKeyFail).2
      "network failure" [Request.sentiment] rfl).2.2.2.1⟩

/-- C6 counterexample: two step-2 records that differ only in their
`price_error` and `sentiment_error` annotations produce identical step-3
outputs and identical final reports, so the provenance of a partial
failure is not preserved into the final `AnalysisReport`. -/
theorem C6_counterexample_provenance_dropped :
    stage2SampleA.price_error ≠ stage2SampleB.price_error ∧
    stage2SampleA.sentiment_error ≠ stage2SampleB.sentiment_error ∧
    fetchCryptoNewsExec stage2SampleA plainNewsEnv =
      fetchCryptoNewsExec stage2SampleB plainNewsEnv ∧
    compileAnalysisExec (fetchCryptoNewsExec stage2SampleA plainNewsEnv).1
        plainCompileEnv =
      compileAnalysisExec (fetchCryptoNewsExec stage2SampleB plainNewsEnv).1
        plainCompileEnv :=
  ⟨by decide, by decide, rfl, rfl⟩

/-- C6 (amended): the sentiment stage only adds fields - every upstream
field reappears unchanged and the step-1 `error` is carried as
`price_error` - but the news stage's output drops `price_error` and
`sentiment_error` entirely (its output depends on neither), so failure
provenance stops there and does not reach the final report. -/
theorem C6_amended_error_provenance (inp : Stage1Out) (env : SentimentEnv)
    (inp2 : Stage2Out) (nenv : NewsEnv) (pe pe2 se se2 : Option String) :
    ((fetchSentimentExec inp env).1.crypto_id = inp.crypto_id ∧
     (fetchSentimentExec inp env).1.crypto_symbol = inp.crypto_symbol ∧
     (fetchSentimentExec inp env).1.news_limit = inp.news_limit ∧
     (fetchSentimentExec inp env).1.name = inp.name ∧
     (fetchSentimentExec inp env).1.symbol = inp.symbol ∧
     (fetchSentimentExec inp env).1.priceUsd = inp.priceUsd ∧
     (fetchSentimentExec inp env).1.changePercent24Hr = inp.changePercent24Hr ∧
     (fetchSentimentExec inp env).1.price_error = inp.error) ∧
    fetchCryptoNewsExec { inp2 with price_error := pe, sentiment_error := se }
        nenv =
      fetchCryptoNewsExec { inp2 with price_error := pe2, sentiment_error := se2 }
        nenv := by
  constructor
  · unfold fetchSentimentExec
    rcases htry : fetchSentimentTry inp env with ⟨res, reqs⟩
    cases res with
    | ok out =>
      simpa using sentimentTry_ok_preserves htry
    | error msg =>
      simp
  · rfl

/-- C7: the workflow news stage never fails the pipeline: it always
returns the restructured price and sentiment data (its output record has
no error field at all), and the article list is empty whenever the news
credential is absent or the provider call aborts, throws, answers with a
non-ok status, or yields a body without a usable articles array. -/
theorem C7_news_stage_never_fails (inp : Stage2Out) (env : NewsEnv) :
    ((fetchCryptoNewsExec inp env).1.priceData =
        { name := inp.name, symbol := inp.symbol, priceUsd := inp.priceUsd,
          changePercent24Hr := inp.changePercent24Hr } ∧
     (fetchCryptoNewsExec inp env).1.sentimentData =
        { sentiment := inp.sentiment, score := inp.score,
          fearGreedValue := inp.fearGreedValue,
          classification := inp.classification }) ∧
    (env.newsKey = none → (fetchCryptoNewsExec inp env).1.articles = []) ∧
    (∀ m, env.http = .abort m → (fetchCryptoNewsExec inp env).1.articles = []) ∧
    (∀ m, env.http = .thrown m → (fetchCryptoNewsExec inp env).1.articles = []) ∧
    (∀ st sx b, env.http = .resp false st sx b →
      (fetchCryptoNewsExec inp env).1.articles = []) ∧
    (∀ st sx, env.http = .resp true st sx none →
      (fetchCryptoNewsExec inp env).1.articles = []) ∧
    (∀ st sx bd, env.http = .resp true st sx (some bd) → bd.articles = none →
      (fetchCryptoNewsExec inp env).1.articles = []) := by
  refine ⟨⟨rfl, rfl⟩, ?_, ?_, ?_, ?_, ?_, ?_⟩
  · intro hk
    simp [fetchCryptoNewsExec, hk]
  · intro m h
    rcases hk : env.newsKey <;> simp [fetchCryptoNewsExec, hk, h]
  · intro m h
    rcases hk : env.newsKey <;> simp [fetchCryptoNewsExec, hk, h]
  · intro st sx b h
    rcases hk : env.newsKey <;> simp [fetchCryptoNewsExec, hk, h]
  · intro st sx h
    rcases hk : env.newsKey <;> simp [fetchCryptoNewsExec, hk, h]
  · intro st sx bd h ha
    rcases hk : env.newsKey <;> simp [fetchCryptoNewsExec, hk, h, ha]

/-- C7 witness: the theorem applied with no news credential. -/
theorem C7_witness :
    (fetchCryptoNewsExec stage2SampleA plainNewsEnv).1.articles = [] :=
  (C7_news_stage_never_fails stage2SampleA plainNewsEnv).2.1 rfl

/-- The success return of the workflow price try-block has no error field
and a `priceUsd` that `parseFloat` evaluates to a positive number. -/
theorem priceTry_ok_pos {inp : WorkflowInput} {env : PriceEnv}
    {out : Stage1Out} {reqs : List Request}
    (h : fetchCryptoPriceTry inp env = (.ok out, reqs)) :
    out.error = none ∧ ∃ p : ℚ, env.pf out.priceUsd = some p ∧ 0 < p := by
  unfold fetchCryptoPriceTry at h
  repeat' split at h
  all_goals simp_all
  all_goals obtain ⟨h1, h2⟩ := h
  all_goals subst h1
  all_goals simp_all [not_le]

/-- The success return of the tool `getPrice` has no error field and a
`priceUsd` that `parseFloat` evaluates to a positive number. -/
theorem getPrice_ok_pos {cid : String} {env : PriceEnv} {out : ToolPriceOut}
    (h : getPrice cid env = .ok out) :
    out.error = none ∧ ∃ p : ℚ, env.pf out.priceUsd = some p ∧ 0 < p := by
  unfold getPrice at h
  repeat' split at h
  all_goals simp_all
  all_goals subst h
  all_goals simp_all [not_le]

/-- C1: both the workflow price step and the `getCryptoPrice` tool return
a record whose `priceUsd` parses to a number strictly greater than zero
whenever the error field is absent, and whose `priceUsd` is exactly the
string `0` whenever the error field is present. -/
theorem C1_price_record_invariant (inp : WorkflowInput) (cid : String)
    (env envT : PriceEnv) :
    (((fetchCryptoPriceExec inp env).1.error = none →
        ∃ p : ℚ, env.pf (fetchCryptoPriceExec inp env).1.priceUsd = some p ∧
          0 < p) ∧
     ((fetchCryptoPriceExec inp env).1.error ≠ none →
        (fetchCryptoPriceExec inp env).1.priceUsd = "0")) ∧
    (((getCryptoPriceExec cid envT).error = none →
        ∃ p : ℚ, envT.pf (getCryptoPriceExec cid envT).priceUsd = some p ∧
          0 < p) ∧
     ((getCryptoPriceExec cid envT).error ≠ none →
        (getCryptoPriceExec cid envT).priceUsd = "0")) := by
  constructor
  · unfold fetchCryptoPriceExec
    rcases h : fetchCryptoPriceTry inp env with ⟨res, reqs⟩
    cases res with
    | ok out =>
      obtain ⟨he, p, hp, hpos⟩ := priceTry_ok_pos h
      exact ⟨fun _ => ⟨p, hp, hpos⟩, fun hne => (hne he).elim⟩
    | error msg =>
      exact ⟨fun h0 => (Option.some_ne_none msg h0).elim, fun _ => rfl⟩
  · unfold getCryptoPriceExec
    by_cases hq : jsTrim (jsToLower cid) = ""
    · rw [if_pos hq]
      exact ⟨fun h0 => (Option.some_ne_none _ h0).elim, fun _ => rfl⟩
    · rw [if_neg hq]
      rcases hg : getPrice (jsTrim (jsToLower cid)) envT with msg | out
      · exact ⟨fun h0 => (Option.some_ne_none msg h0).elim, fun _ => rfl⟩
      · obtain ⟨he, p, hp, hpos⟩ := getPrice_ok_pos hg
        exact ⟨fun _ => ⟨p, hp, hpos⟩, fun hne => (hne he).elim⟩

/-- C1 witness: the theorem applied in a fully successful world and in two
failing worlds. -/
theorem C1_witness :
    (fetchCryptoPriceExec sampleInput okPriceEnv).1.error = none ∧
    (∃ p : ℚ, okPriceEnv.pf (fetchCryptoPriceExec sampleInput okPriceEnv).1.priceUsd
        = some p ∧ 0 < p) ∧
    (fetchCryptoPriceExec sampleInput noKeyPriceEnv).1.priceUsd = "0" ∧
    (getCryptoPriceExec "bitcoin" failPriceEnv).priceUsd = "0" :=
  ⟨rfl,
   (C1_price_record_invariant sampleInput "bitcoin" okPriceEnv failPriceEnv).1.1
     rfl,
   (C1_price_record_invariant sampleInput "bitcoin" noKeyPriceEnv failPriceEnv).1.2
     (by decide),
   (C1_price_record_invariant sampleInput "bitcoin" okPriceEnv failPriceEnv).2.2
     (by decide)⟩

/-- C3 counterexample: with `COINCAP_API_KEY` absent, the workflow price
step and the `getCryptoPrice` tool both complete normally and return a
zero-price record carrying an error field (the pipeline continues), so a
price fetch is not aborted by the missing credential. -/
theorem C3_counterexample_degraded_not_aborted :
    (fetchCryptoPriceExec sampleInput noKeyPriceEnv).1.error =
      some "COINCAP_API_KEY environment variable is required" ∧
    (fetchCryptoPriceExec sampleInput noKeyPriceEnv).1.priceUsd = "0" ∧
    (fetchCryptoPriceExec sampleInput noKeyPriceEnv).2 = [] ∧
    getCryptoPriceExec "bitcoin" noKeyPriceEnv =
      { name := "bitcoin", symbol := "UNKNOWN", priceUsd := "0",
        changePercent24Hr := some "N/A",
        error := some "COINCAP_API_KEY environment variable is required" } :=
  ⟨rfl, rfl, rfl, rfl⟩

/-- C3 (amended): the missing rates credential is detected before any
network request is issued (the request list is empty), but the resulting
throw is caught at the `execute` boundary of both the workflow step and
the tool, which return a degraded zero-price record whose error names the
missing variable; the enclosing call is not aborted. -/
theorem C3_amended_missing_credential_degrades (inp : WorkflowInput)
    (cid : String) (env : PriceEnv)
    (hk : env.coincapKey = none)
    (h1 : jsTrim inp.crypto_id ≠ "") (h2 : jsTrim inp.crypto_symbol ≠ "")
    (h3 : matchesInvalidIdPattern (jsTrim (jsToLower inp.crypto_id)) = false)
    (h4 : jsTrim (jsToLower cid) ≠ "")
    (h5 : jsTrim (jsToLower (jsTrim (jsToLower cid))) ≠ "")
    (h6 : matchesInvalidIdPattern (jsTrim (jsToLower (jsTrim (jsToLower cid))))
      = false) :
    fetchCryptoPriceExec inp env =
      (wfPriceErrorOut inp "COINCAP_API_KEY environment variable is required",
       []) ∧
    getCryptoPriceExec cid env =
      { name := cid, symbol := "UNKNOWN", priceUsd := "0",
        changePercent24Hr := some "N/A",
        error := some "COINCAP_API_KEY environment variable is required" } := by
  constructor
  · unfold fetchCryptoPriceExec fetchCryptoPriceTry
    rw [if_neg h1, if_neg h2, if_neg (by simp [h3]), hk]
  · unfold getCryptoPriceExec getPrice
    rw [if_neg h4, if_neg h4, if_neg h5, if_neg (by simp [h6]), hk]

/-- C3 witness: the amended theorem applied at `bitcoin` with no key. -/
theorem C3_amended_witness :
    fetchCryptoPriceExec sampleInput noKeyPriceEnv =
      (wfPriceErrorOut sampleInput
        "COINCAP_API_KEY environment variable is required", []) :=
  (C3_amended_missing_credential_degrades sampleInput "bitcoin" noKeyPriceEnv
    rfl (by decide) (by decide) (by decide) (by decide) (by decide)
    (by decide)).1

/-- A JS `||` of strings with a nonempty default is never empty. -/
theorem jsOrStr_ne_empty (v d : String) (hd : d ≠ "") : jsOrStr v d ≠ "" := by
  unfold jsOrStr
  split_ifs with hv
  · exact hd
  · exact hv

/-- With a configured credential and a nonempty symbol, the sentiment
try-block always issues exactly the sentiment request. -/
theorem sentimentTry_requests (inp : Stage1Out) (env : SentimentEnv)
    (k : String) (hk : env.cmcKey = some k) (hs : inp.crypto_symbol ≠ "") :
    (fetchSentimentTry inp env).2 = [Request.sentiment] := by
  unfold fetchSentimentTry
  rw [if_neg hs, hk]
  cases env.http
  · rfl
  · rfl
  · repeat' split
    all_goals first | rfl | simp_all

/-- The sentiment step passes the try-block request list through. -/
theorem sentimentExec_snd (inp : Stage1Out) (env : SentimentEnv) :
    (fetchSentimentExec inp env).2 = (fetchSentimentTry inp env).2 := by
  unfold fetchSentimentExec
  rcases h : fetchSentimentTry inp env with ⟨res, reqs⟩
  cases res
  · rfl
  · rfl

/-- C9 counterexample: on the malformed identifier `../etc` the request is
not rejected before stage 1 runs: stage 1 itself runs, issues no network
request, and returns a degraded zero-price record carrying the validation
message; the pipeline then continues, and the sentiment stage (with a
configured sentiment credential) still issues a network call. -/
theorem C9_counterexample_not_rejected_before_stage1 :
    (fetchCryptoPriceExec malformedInput failPriceEnv).2 = [] ∧
    (fetchCryptoPriceExec malformedInput failPriceEnv).1.error =
      some (invalidIdFormatMsg "../etc") ∧
    (fetchCryptoPriceExec malformedInput failPriceEnv).1.priceUsd = "0" ∧
    (fetchSentimentExec (fetchCryptoPriceExec malformedInput failPriceEnv).1
        sentEnvKeyFail).2 = [Request.sentiment] :=
  ⟨rfl, rfl, rfl, rfl⟩

/-- C9 (amended): a malformed identifier is detected inside stage 1 before
the price network call: the stage issues no request and returns a degraded
record whose error is the validation message (a message distinct from
every transport-error message); but the pipeline is not rejected - the
stage returns normally, and with a sentiment credential configured the
next stage still issues a network call. -/
theorem C9_amended_malformed_id_handling (inp : WorkflowInput)
    (env : PriceEnv) (senv : SentimentEnv) (k : String)
    (h1 : jsTrim inp.crypto_id ≠ "") (h2 : jsTrim inp.crypto_symbol ≠ "")
    (h3 : matchesInvalidIdPattern (jsTrim (jsToLower inp.crypto_id)) = true)
    (hk : senv.cmcKey = some k) :
    fetchCryptoPriceExec inp env =
      (wfPriceErrorOut inp (invalidIdFormatMsg inp.crypto_id), []) ∧
    invalidIdFormatMsg inp.crypto_id ≠
      "Rate limit exceeded. Please try again in a few moments." ∧
    invalidIdFormatMsg inp.crypto_id ≠
      "CoinCap API is temporarily unavailable. Please try again later." ∧
    (fetchSentimentExec (fetchCryptoPriceExec inp env).1 senv).2 =
      [Request.sentiment] := by
  have hout : fetchCryptoPriceExec inp env =
      (wfPriceErrorOut inp (invalidIdFormatMsg inp.crypto_id), []) := by
    unfold fetchCryptoPriceExec fetchCryptoPriceTry
    rw [if_neg h1, if_neg h2, if_pos h3]
  refine ⟨hout, ?_, ?_, ?_⟩
  · intro hcon
    have := congrArg (fun s => s.data.take 10) hcon
    simp [invalidIdFormatMsg, sq] at this
  · intro hcon
    have := congrArg (fun s => s.data.take 10) hcon
    simp [invalidIdFormatMsg, sq] at this
  · rw [hout]
    rw [sentimentExec_snd, sentimentTry_requests _ _ k hk]
    exact jsOrStr_ne_empty _ _ (by decide)

/-- C9 witness: the amended theorem applied at the spec's own scenario
input `../etc`. -/
theorem C9_amended_witness :
    fetchCryptoPriceExec malformedInput failPriceEnv =
      (wfPriceErrorOut malformedInput (invalidIdFormatMsg "../etc"), []) :=
  (C9_amended_malformed_id_handling malformedInput failPriceEnv
    sentEnvKeyFail "k" (by decide) (by decide) (by decide) rfl).1

set_option maxRecDepth 8000 in
/-- C8 counterexample: the workflow news stage does not sanitize fetched
articles: a fetched article keeps its 201-character title untruncated, its
url `not-a-url` is not replaced with `#`, and its pre-2000 `publishedAt`
is not replaced. -/
theorem C8_counterexample_workflow_passthrough :
    ((fetchCryptoNewsExec stage2SampleB newsEnvBad).1.articles.map
      (fun a => a.url)) = ["not-a-url"] ∧
    ((fetchCryptoNewsExec stage2SampleB newsEnvBad).1.articles.map
      (fun a => a.title.data.length)) = [201] ∧
    ((fetchCryptoNewsExec stage2SampleB newsEnvBad).1.articles.map
      (fun a => a.publishedAt)) = ["1999-01-01"] ∧
    "not-a-url" ≠ "#" ∧ 200 < 201 := by
  decide

/-- C8 (amended): the sanitization holds in the `getCryptoNews` tool live
path - an over-long title is truncated to exactly its first 200
characters, a url that does not construct an absolute http/https URL is
replaced with `#`, and a `publishedAt` that does not parse to a date with
year after 2000 is replaced with the current timestamp - while the
workflow news stage performs no sanitization and passes the provider
fields through unchanged (only a missing description is defaulted). -/
theorem C8_amended_sanitization (env : NewsToolEnv) (a : NewsToolRawArticle)
    (inp : Stage2Out) (k : String) (st : ℕ) (sx : String)
    (arts : List WfRawArticle) :
    (∀ t, a.title = some t → 200 < t.data.length →
      (sanitizeNewsArticle env a).title = jsSubstring t 200) ∧
    (isValidUrl env a.url = false → (sanitizeNewsArticle env a).url = "#") ∧
    (∀ u, a.url = some u → u ≠ "" → env.urlProtocol u = none →
      (sanitizeNewsArticle env a).url = "#") ∧
    (isValidDate env a.publishedAt = false →
      (sanitizeNewsArticle env a).publishedAt = env.isoAt env.nowMs) ∧
    (∀ d y, a.publishedAt = some d → d ≠ "" → env.dateYear d = some y →
      y ≤ 2000 →
      (sanitizeNewsArticle env a).publishedAt = env.isoAt env.nowMs) ∧
    (fetchCryptoNewsExec inp
        { newsKey := some k,
          http := .resp true st sx (some { articles := some arts }) }).1.articles
      = arts.map (fun r =>
          { title := r.title, description := jsOrStrO r.description "",
            url := r.url, publishedAt := r.publishedAt,
            source := r.sourceName }) := by
  refine ⟨?_, ?_, ?_, ?_, ?_, rfl⟩
  · intro t ht hlen
    have hne : t ≠ "" := by
      intro h0
      rw [h0] at hlen
      simp at hlen
    simp [sanitizeNewsArticle, jsOrStrO, jsOrStr, ht, hne]
  · intro h
    simp [sanitizeNewsArticle, h]
  · intro u hu hne hp
    have : isValidUrl env a.url = false := by
      simp [isValidUrl, hu, hne, hp]
    simp [sanitizeNewsArticle, this]
  · intro h
    simp [sanitizeNewsArticle, h]
  · intro d y hd hne hy hle
    have : isValidDate env a.publishedAt = false := by
      simp [isValidDate, hd, hne, hy]
      omega
    simp [sanitizeNewsArticle, this]

set_option maxRecDepth 8000 in
/-- C8 witness: the amended theorem applied to a raw article exhibiting
all three defects, in a world whose URL parser rejects `not-a-url` and
whose date parser assigns `1999-01-01` the year 1999. -/
theorem C8_amended_witness :
    (sanitizeNewsArticle newsToolEnvSample
      { title := some longTitle, description := some "d",
        url := some "not-a-url", publishedAt := some "1999-01-01",
        sourceName := some "S" }).url = "#" ∧
    (sanitizeNewsArticle newsToolEnvSample
      { title := some longTitle, description := some "d",
        url := some "not-a-url", publishedAt := some "1999-01-01",
        sourceName := some "S" }).publishedAt =
      newsToolEnvSample.isoAt newsToolEnvSample.nowMs ∧
    (sanitizeNewsArticle newsToolEnvSample
      { title := some longTitle, description := some "d",
        url := some "not-a-url", publishedAt := some "1999-01-01",
        sourceName := some "S" }).title = jsSubstring longTitle 200 :=
  ⟨(C8_amended_sanitization newsToolEnvSample _ stage2SampleB "k" 200 "OK"
      []).2.2.1 "not-a-url" rfl (by decide) rfl,
   (C8_amended_sanitization newsToolEnvSample _ stage2SampleB "k" 200 "OK"
      []).2.2.2.2.1 "1999-01-01" 1999 rfl (by decide) rfl (by norm_num),
   (C8_amended_sanitization newsToolEnvSample _ stage2SampleB "k" 200 "OK"
      []).1 longTitle rfl (by decide)⟩

/-- The bound of `Math.max(1, Math.min(20, x))`. -/
theorem jsClampBounds (y : ℚ) :
    1 ≤ jsMaxQ 1 (jsMinQ 20 y) ∧ jsMaxQ 1 (jsMinQ 20 y) ≤ 20 := by
  unfold jsMaxQ jsMinQ
  constructor
  · split_ifs <;> linarith
  · split_ifs <;> linarith

/-- Truncating a nonnegative rational slice bound stays below it. -/
theorem jsSliceCount_le_self (q : ℚ) (h : 0 ≤ q) : (jsSliceCount q : ℚ) ≤ q := by
  unfold jsSliceCount
  have h0 : (0 : ℤ) ≤ ⌊q⌋ := Int.floor_nonneg.mpr h
  calc ((Int.toNat ⌊q⌋ : ℕ) : ℚ) = ((⌊q⌋ : ℤ) : ℚ) := by
        rw [← Int.cast_natCast, Int.toNat_of_nonneg h0]
    _ ≤ q := Int.floor_le q

/-- A slice bound of at least one keeps at least one element. -/
theorem one_le_jsSliceCount (q : ℚ) (h : 1 ≤ q) : 1 ≤ jsSliceCount q := by
  unfold jsSliceCount
  have h1 : (1 : ℤ) ≤ ⌊q⌋ := Int.le_floor.mpr (by exact_mod_cast h)
  omega

/-- A `Math.min` with both arguments at least one is at least one. -/
theorem one_le_jsMinQ (a b : ℚ) (ha : 1 ≤ a) (hb : 1 ≤ b) : 1 ≤ jsMinQ a b := by
  unfold jsMinQ
  split_ifs
  · exact ha
  · exact hb

/-- A `Math.min` is bounded by its left argument. -/
theorem jsMinQ_le_left (a b : ℚ) : jsMinQ a b ≤ a := by
  unfold jsMinQ
  split_ifs with h
  · exact le_refl a
  · exact le_of_not_le h

/-- The templated fallback tier returns between one and `limit` articles
whenever the limit is in [1, 20]. -/
theorem altSource_articles_count (q : String) (L : ℚ) (env : NewsToolEnv)
    (h1 : 1 ≤ L) (h20 : L ≤ 20) :
    1 ≤ (fetchCryptoNewsFromAlternativeSource q L env).articles.length ∧
    ((fetchCryptoNewsFromAlternativeSource q L env).articles.length : ℚ) ≤ L := by
  unfold fetchCryptoNewsFromAlternativeSource
  split_ifs with hq hbad
  · exact ⟨by norm_num, by simpa using h1⟩
  · exact absurd hbad (by push_neg; exact ⟨h1, h20⟩)
  · have h6 : 1 ≤ jsSliceCount (jsMinQ L 6) :=
      one_le_jsSliceCount _ (one_le_jsMinQ L 6 h1 (by norm_num))
    have hq0 : (0 : ℚ) ≤ jsMinQ L 6 := by
      have := one_le_jsMinQ L 6 h1 (by norm_num)
      linarith
    have hle : (((fallbackBaseArticles env q).map
        (customizeFallbackArticle q)).take (jsSliceCount (jsMinQ L 6))).length
        ≤ jsSliceCount (jsMinQ L 6) := by
      rw [List.length_take]
      exact min_le_left _ _
    constructor
    · show 1 ≤ (((fallbackBaseArticles env q).map
        (customizeFallbackArticle q)).take (jsSliceCount (jsMinQ L 6))).length
      rw [List.length_take, List.length_map]
      have hfb : (fallbackBaseArticles env q).length = 6 := rfl
      rw [hfb]
      omega
    · show ((((fallbackBaseArticles env q).map
        (customizeFallbackArticle q)).take
          (jsSliceCount (jsMinQ L 6))).length : ℚ) ≤ L
      calc ((((fallbackBaseArticles env q).map
            (customizeFallbackArticle q)).take
              (jsSliceCount (jsMinQ L 6))).length : ℚ)
          ≤ (jsSliceCount (jsMinQ L 6) : ℚ) := by exact_mod_cast hle
        _ ≤ jsMinQ L 6 := jsSliceCount_le_self _ hq0
        _ ≤ L := jsMinQ_le_left L 6

/-- The live tier keeps between one and `limit` articles when nonempty. -/
theorem live_tier_count {α β : Type} (n : ℕ) (xs : List α) (f : α → β)
    (L : ℚ) (hn : (n : ℚ) ≤ L) (hne : ((xs.take n).map f).length ≠ 0) :
    1 ≤ ((xs.take n).map f).length ∧ (((xs.take n).map f).length : ℚ) ≤ L := by
  constructor
  · exact Nat.pos_of_ne_zero hne
  · have hlen : ((xs.take n).map f).length ≤ n := by
      rw [List.length_map, List.length_take]
      exact min_le_left _ _
    calc (((xs.take n).map f).length : ℚ) ≤ (n : ℚ) := by exact_mod_cast hlen
      _ ≤ L := hn

/-- Every tier of `fetchCryptoNewsWithFallback` returns between one and
`limit` articles whenever the limit is in [1, 20]. -/
theorem withFallback_articles_count (q : String) (L : ℚ) (env : NewsToolEnv)
    (h1 : 1 ≤ L) (h20 : L ≤ 20) :
    1 ≤ (fetchCryptoNewsWithFallback q L env).articles.length ∧
    ((fetchCryptoNewsWithFallback q L env).articles.length : ℚ) ≤ L := by
  unfold fetchCryptoNewsWithFallback
  repeat' split
  all_goals
    first
      | exact altSource_articles_count q L env h1 h20
      | exact live_tier_count _ _ _ L
          (jsSliceCount_le_self L (by linarith)) (by assumption)

/-- C10: the `getCryptoNews` tool never returns an empty article list and
never more than the clamped limit `Math.max(1, Math.min(20, limit or 5))`
articles: the live tier truncates to the limit and requires at least one
article, the templated fallback returns at least one and at most the
limit, and the error tiers return exactly one article. -/
theorem C10_news_tool_article_count (ctx : NewsToolContext)
    (env : NewsToolEnv) :
    1 ≤ (getCryptoNewsExec ctx env).articles.length ∧
    ((getCryptoNewsExec ctx env).articles.length : ℚ) ≤
      jsMaxQ 1 (jsMinQ 20 (jsOrNumO ctx.limit 5)) := by
  obtain ⟨hb1, hb20⟩ := jsClampBounds (jsOrNumO ctx.limit 5)
  unfold getCryptoNewsExec
  split_ifs
  · exact ⟨by norm_num, by simpa using hb1⟩
  · exact ⟨by norm_num, by simpa using hb1⟩
  · exact withFallback_articles_count _ _ env hb1 hb20

end CryptoAgentSpec
